import Mathlib

/-!
Shallow embedding of the devleven outbound-call relay bridge
(`app/handlers/websocket_handler.py`), the signed-session acquirer
(`app/services/elevenlabs_service.py`, `app/config.py`) and the dashboard
fan-out (`app/handlers/dashboard_ws.py`), with theorems checking the
natural-language specification against the code.

Conventions of the embedding:
* JSON dict payloads are modelled as structured inductive values; sends on
  a socket are modelled as emitted actions (an action records the attempt,
  whether or not the environment lets it succeed).
* Python truthiness of optional strings (`None` and `""` are falsy) is
  modelled by `truthyOpt`.
* The environment (the network, the other read loop) is modelled by
  oracles: per-send success results and explicit interleaving steps.
-/

namespace Devleven

/-- Python truthiness of an optional string: `None` and `""` are falsy. -/
def truthyOpt : Option String → Bool
  | none => false
  | some s => s ≠ ""

/-- Per-call mutable session state of `OutboundWebSocketHandler`
(`__init__`, websocket_handler.py lines 18-34). `elevenlabsWs` records
whether `self.elevenlabs_ws` is set (non-None). -/
structure SessionState where
  streamSid : Option String
  callSid : Option String
  conversationId : Option String
  clientName : String
  phoneNumber : String
  elevenlabsWs : Bool
  elevenlabsClosed : Bool
deriving Repr, DecidableEq

/-- State built by `OutboundWebSocketHandler.__init__(websocket, client_name, phone_number)`. -/
def initialState (clientName phoneNumber : String) : SessionState :=
  { streamSid := none
    callSid := none
    conversationId := none
    clientName := clientName
    phoneNumber := phoneNumber
    elevenlabsWs := false
    elevenlabsClosed := false }

/-- Model of Python `str.strip()`: remove leading and trailing whitespace.
Implemented structurally on the character list so that it evaluates in the
kernel. -/
def pyStrip (s : String) : String :=
  ⟨((s.data.dropWhile Char.isWhitespace).reverse.dropWhile Char.isWhitespace).reverse⟩

/-- Embeds `_build_first_message` (websocket_handler.py lines 112-121):
`name = (self.client_name or "").strip(); if not name: name = "there"`,
then the greeting f-string. -/
def build_first_message (clientName : String) : String :=
  let name0 := pyStrip clientName
  let name := if name0 = "" then "there" else name0
  "Hey " ++ name ++ "! Umm, this is Monica from Dev Fusion. How are you doing today? I am an Ai agent so, umm, please bear with me as you might experience a little delay in my responses."

/-- Embeds `_build_dynamic_variables` (websocket_handler.py lines 123-130). -/
def build_dynamic_variables (clientName phoneNumber : String) : List (String × String) :=
  (if clientName ≠ "" then [("client_name", clientName)] else []) ++
    (if phoneNumber ≠ "" then [("phone_number", phoneNumber)] else [])

/-- Outcome of one `await ...send(...)` on the ElevenLabs socket, as the
Twilio loop distinguishes them (websocket_handler.py lines 219-229):
success, `websockets.exceptions.ConnectionClosed`, a generic exception whose
text mentions close code 1000, or any other exception. -/
inductive SendResult
  | ok
  | connClosed
  | closed1000
  | otherErr
deriving Repr, DecidableEq

/-- Parsed inbound Twilio frame, by its `event` tag
(websocket_handler.py lines 193-238). `badJson` is a frame on which
`json.loads` raises. -/
inductive TwilioMsg
  | startEv (streamSid callSid : String) (customParams : List (String × String))
  | mediaEv (payload : String)
  | stopEv
  | otherEv (tag : String)
  | badJson
deriving Repr, DecidableEq

/-- One step of the Twilio read loop's environment: a received frame
(with the oracle results for any send/close this iteration performs), a
frame received while the other loop set `elevenlabs_closed` during the
blocking receive, the other loop setting the flag between iterations, or
`WebSocketDisconnect` raised by `receive_text`. -/
inductive TwStep
  | recv (m : TwilioMsg) (sendRes : SendResult) (closeOk : Bool)
  | recvDuringClose (m : TwilioMsg) (sendRes : SendResult) (closeOk : Bool)
  | envClosed
  | twDisconnect
deriving Repr, DecidableEq

/-- Action attempted by the Twilio read loop: a send on the ElevenLabs
socket (`elSendInit` is the `conversation_initiation_client_data` payload,
`elSendAudio p` is the `\x7buser_audio_chunk: p\x7d` message), a close of the
ElevenLabs socket, or a `logger.error` call. -/
inductive TwAction
  | elSendInit (firstMessage : String) (dynVars : List (String × String))
  | elSendAudio (payload : String)
  | elClose
  | logError
deriving Repr, DecidableEq

/-- Embeds `_initialize_conversation_context` (websocket_handler.py lines
79-110): gated on `self.elevenlabs_ws`; a failed send is logged and
swallowed. The first-message override is always present because
`_build_first_message` never returns an empty string. -/
def initialize_conversation_context (s : SessionState) (sendRes : SendResult) : List TwAction :=
  if s.elevenlabsWs then
    match sendRes with
    | .ok => [.elSendInit (build_first_message s.clientName)
                (build_dynamic_variables s.clientName s.phoneNumber)]
    | _ => [.elSendInit (build_first_message s.clientName)
                (build_dynamic_variables s.clientName s.phoneNumber), .logError]
  else []

/-- Embeds the `start` branch (websocket_handler.py lines 195-208): record
stream/call sids; if `customParameters` is truthy (non-empty), overwrite
`client_name`/`phone_number` with `custom_params.get(key, "")` and, if the
ElevenLabs socket is set, send the conversation-initiation payload. -/
def handleStartEvent (s : SessionState) (sid csid : String)
    (params : List (String × String)) (sendRes : SendResult) :
    SessionState × List TwAction :=
  let s1 := { s with streamSid := some sid, callSid := some csid }
  if params ≠ [] then
    let s2 := { s1 with clientName := (params.lookup "client_name").getD ""
                        phoneNumber := (params.lookup "phone_number").getD "" }
    (s2, initialize_conversation_context s2 sendRes)
  else (s1, [])

/-- Embeds the body of one Twilio-loop iteration after `json.loads`
(websocket_handler.py lines 191-238). Returns the new state, the actions
attempted, and whether the loop continues. A `badJson` frame raises out of
the `while` into the outer `except Exception` (line 242-243), which logs
and ends the loop. -/
def processTwilioMsg (s : SessionState) (m : TwilioMsg)
    (sendRes : SendResult) (closeOk : Bool) :
    SessionState × List TwAction × Bool :=
  match m with
  | .badJson => (s, [.logError], false)
  | .startEv sid csid params =>
      let r := handleStartEvent s sid csid params sendRes
      (r.1, r.2, true)
  | .mediaEv p =>
      if s.elevenlabsWs && !s.elevenlabsClosed then
        match sendRes with
        | .ok => (s, [.elSendAudio p], true)
        | .connClosed => ({ s with elevenlabsClosed := true }, [.elSendAudio p], false)
        | .closed1000 =>
            ({ s with elevenlabsClosed := true }, [.elSendAudio p, .logError], false)
        | .otherErr => (s, [.elSendAudio p, .logError], true)
      else (s, [], true)
  | .stopEv =>
      if s.elevenlabsWs && !s.elevenlabsClosed then
        if closeOk then ({ s with elevenlabsClosed := true }, [.elClose], false)
        else (s, [.elClose], false)
      else (s, [], false)
  | .otherEv _ => (s, [], true)

/-- Result of running the Twilio read loop on a finite step trace: final
state, the actions attempted in order, and whether the loop is still alive
(would keep iterating on further input). -/
structure TwRun where
  state : SessionState
  sent : List TwAction
  alive : Bool
deriving Repr, DecidableEq

/-- Embeds `_handle_twilio_messages` (websocket_handler.py lines 182-243)
as a fold over an environment trace. Each iteration first checks
`self.elevenlabs_closed` (line 187) and breaks if set; `recvDuringClose`
models the flag being set by the ElevenLabs loop while `receive_text` was
blocked, after the top-of-loop check already passed. -/
def handleTwilioMessages : SessionState → List TwStep → TwRun
  | s, [] => ⟨s, [], true⟩
  | s, .envClosed :: rest => handleTwilioMessages { s with elevenlabsClosed := true } rest
  | s, .twDisconnect :: _ => ⟨s, [], false⟩
  | s, .recv m sendRes closeOk :: rest =>
      if s.elevenlabsClosed then ⟨s, [], false⟩
      else
        let p := processTwilioMsg s m sendRes closeOk
        if p.2.2 then
          let r := handleTwilioMessages p.1 rest
          ⟨r.state, p.2.1 ++ r.sent, r.alive⟩
        else ⟨p.1, p.2.1, false⟩
  | s, .recvDuringClose m sendRes closeOk :: rest =>
      if s.elevenlabsClosed then ⟨s, [], false⟩
      else
        let p := processTwilioMsg { s with elevenlabsClosed := true } m sendRes closeOk
        if p.2.2 then
          let r := handleTwilioMessages p.1 rest
          ⟨r.state, p.2.1 ++ r.sent, r.alive⟩
        else ⟨p.1, p.2.1, false⟩

example :
    (handleTwilioMessages { initialState "" "" with elevenlabsWs := true }
      [.recv (.mediaEv "a") .ok true, .recv (.mediaEv "b") .ok true]).sent
      = [.elSendAudio "a", .elSendAudio "b"] := by decide

example :
    (handleTwilioMessages { initialState "" "" with elevenlabsWs := true }
      [.recv .badJson .ok true, .recv (.mediaEv "b") .ok true]).sent
      = [.logError] := by decide

/-- Parsed inbound ElevenLabs frame, by its `type` tag
(websocket_handler.py lines 145-157, 245-301). `ping` carries
`data.get("ping_event", \x7b\x7d).get("event_id")`; `audioMsg` carries the two
alternative payload fields `audio.chunk` and `audio_event.audio_base_64`;
`malformed` is a frame on which `json.loads` raises. -/
inductive ElFrame
  | ping (eventId : Option String)
  | audioMsg (chunk : Option String) (audioBase64 : Option String)
  | interruptionMsg
  | convMeta (conversationId : Option String)
  | userTranscript (text : String)
  | agentResponse (text : String)
  | otherMsg (tag : String)
  | malformed
deriving Repr, DecidableEq

/-- Action attempted by the ElevenLabs read loop: a `pong` send on the
ElevenLabs socket, sends/close on the Twilio socket, the one-second grace
sleep, setting `elevenlabs_closed`, the call-record linkage call, or a
`logger.error` call. -/
inductive ElAction
  | elSendPong (eventId : String)
  | twSendMedia (streamSid payload : String)
  | twSendClear (streamSid : String)
  | twSendStop
  | twCloseConn
  | sleepSec (n : Nat)
  | markClosed
  | linkConv (conversationId callSid : String)
  | logErr
deriving Repr, DecidableEq

/-- Predicate selecting the actions of the ElevenLabs loop that are sends
on the AI (ElevenLabs) socket. -/
def isElSocketSend : ElAction → Bool
  | .elSendPong _ => true
  | _ => false

/-- Predicate selecting the actions of the ElevenLabs loop that are sends
on the telephony (Twilio) socket. -/
def isTwilioSend : ElAction → Bool
  | .twSendMedia _ _ => true
  | .twSendClear _ => true
  | .twSendStop => true
  | _ => false

/-- Embeds `_process_elevenlabs_message` (websocket_handler.py lines
245-301). `ok` is the oracle for the one awaited call the branch may make
(a Twilio send or the call-record linkage); a failure is caught by the
loop's inner `except Exception` and logged (lines 163-164). -/
def process_elevenlabs_message (s : SessionState) (f : ElFrame) (ok : Bool) :
    SessionState × List ElAction :=
  match f with
  | .convMeta cid =>
      if truthyOpt cid then
        let s1 := { s with conversationId := cid }
        if truthyOpt s1.callSid then
          (s1, if ok then [.linkConv (cid.getD "") (s1.callSid.getD "")]
               else [.linkConv (cid.getD "") (s1.callSid.getD ""), .logErr])
        else (s1, [])
      else (s, [])
  | .audioMsg chunk ab64 =>
      let audio : Option String :=
        if truthyOpt chunk then chunk else if truthyOpt ab64 then ab64 else none
      if truthyOpt audio && truthyOpt s.streamSid then
        (s, if ok then [.twSendMedia (s.streamSid.getD "") (audio.getD "")]
            else [.twSendMedia (s.streamSid.getD "") (audio.getD ""), .logErr])
      else (s, [])
  | .interruptionMsg =>
      if truthyOpt s.streamSid then
        (s, if ok then [.twSendClear (s.streamSid.getD "")]
            else [.twSendClear (s.streamSid.getD ""), .logErr])
      else (s, [])
  | .userTranscript _ => (s, [])
  | .agentResponse _ => (s, [])
  | .otherMsg _ => (s, [])
  | .ping _ => (s, [])
  | .malformed => (s, [])

/-- Embeds one iteration body of `_handle_elevenlabs_messages`
(websocket_handler.py lines 143-164): parse, special-case `ping` with a
truthy event id (reply `pong` on the same socket and `continue`), otherwise
dispatch to `_process_elevenlabs_message`; `json.JSONDecodeError` is caught
by the inner handler, logged and skipped. -/
def elFrameStep (s : SessionState) (f : ElFrame) (ok : Bool) :
    SessionState × List ElAction :=
  match f with
  | .malformed => (s, [.logErr])
  | .ping eid =>
      if truthyOpt eid then
        (s, if ok then [.elSendPong (eid.getD "")]
            else [.elSendPong (eid.getD ""), .logErr])
      else process_elevenlabs_message s f ok
  | _ => process_elevenlabs_message s f ok

/-- Way the `async for` over the ElevenLabs socket ends: the iterator is
exhausted, `websockets.exceptions.ConnectionClosed` is raised (lines
166-177), or some other exception reaches the outer handler (lines
179-180). -/
inductive ElTermination
  | iterEnd
  | connClosedTerm
  | otherErrTerm
deriving Repr, DecidableEq

/-- Embeds the `except websockets.exceptions.ConnectionClosed` block
(websocket_handler.py lines 166-177): the grace sleep, then — inside a
`try` whose failures are swallowed — if the Twilio socket state is
CONNECTED, send `\x7bevent:"stop"\x7d` and close it. If the stop send fails, the
close is not reached. -/
def elDisconnectActions (twilioConnected stopSendOk : Bool) : List ElAction :=
  [.markClosed, .sleepSec 1] ++
    (if twilioConnected then
      (if stopSendOk then [.twSendStop, .twCloseConn] else [.twSendStop])
     else [])

/-- Embeds `_handle_elevenlabs_messages` (websocket_handler.py lines
140-180) as a fold over the received frames (each with its send oracle)
followed by the termination cause. -/
def handleElevenLabsMessages (s : SessionState) (frames : List (ElFrame × Bool))
    (term : ElTermination) (twilioConnected stopSendOk : Bool) :
    SessionState × List ElAction :=
  match frames with
  | [] =>
      match term with
      | .iterEnd => (s, [])
      | .otherErrTerm => (s, [.logErr])
      | .connClosedTerm =>
          ({ s with elevenlabsClosed := true },
            elDisconnectActions twilioConnected stopSendOk)
  | (f, ok) :: rest =>
      let p := elFrameStep s f ok
      let r := handleElevenLabsMessages p.1 rest term twilioConnected stopSendOk
      (r.1, p.2 ++ r.2)

example :
    (handleElevenLabsMessages (initialState "" "")
      [(.ping (some "e7"), true)] .connClosedTerm true true).2
    = [.elSendPong "e7", .markClosed, .sleepSec 1, .twSendStop, .twCloseConn] := by decide

/-- Timeout (seconds) of the `httpx.AsyncClient` used by
`ElevenLabsService.get_signed_url` (elevenlabs_service.py line 44). -/
def SIGNED_URL_HTTP_TIMEOUT : Nat := 30

/-- Timeout (seconds) of the `asyncio.wait_for` around
`websockets.connect` in `_setup_elevenlabs` (websocket_handler.py line 67). -/
def SETUP_CONNECT_TIMEOUT : Nat := 10

/-- Embeds `Config.validate_elevenlabs_config` (config.py lines 46-50):
raises `ValueError` when `ELEVENLABS_API_KEY` or `ELEVENLABS_AGENT_ID` is
falsy (unset or empty). -/
def validate_elevenlabs_config (apiKey agentId : Option String) : Except String Unit :=
  if !truthyOpt apiKey || !truthyOpt agentId then
    .error "Missing ELEVENLABS_API_KEY or ELEVENLABS_AGENT_ID"
  else .ok ()

/-- Response of the provider's HTTP endpoint, as `get_signed_url` reads it:
the status code, the error text, and the `signed_url` field of the JSON
body. -/
structure HttpResponse where
  statusCode : Nat
  text : String
  signedUrl : String
deriving Repr, DecidableEq

/-- Errors of the signed-URL acquisition. -/
inductive AcquireError
  | configError (msg : String)
  | httpTimeout
  | upstreamError (status : Nat) (text : String)
deriving Repr, DecidableEq

/-- Embeds `ElevenLabsService.get_signed_url` (elevenlabs_service.py lines
27-52): validate the config first, then perform one HTTP GET bounded by
the 30-second client timeout; a non-200 status raises. `elapsedSec` is how
long the environment makes the HTTP call take; the second component counts
HTTP requests attempted. -/
def get_signed_url (apiKey agentId : Option String) (resp : HttpResponse)
    (elapsedSec : Nat) : Except AcquireError String × Nat :=
  match validate_elevenlabs_config apiKey agentId with
  | .error m => (.error (.configError m), 0)
  | .ok _ =>
      if elapsedSec > SIGNED_URL_HTTP_TIMEOUT then (.error .httpTimeout, 1)
      else if resp.statusCode ≠ 200 then
        (.error (.upstreamError resp.statusCode resp.text), 1)
      else (.ok resp.signedUrl, 1)

/-- Errors `_setup_elevenlabs` can raise to `handle`. -/
inductive SetupError
  | acquisition (e : AcquireError)
  | connectTimeout
  | connectFailed
deriving Repr, DecidableEq

/-- Environment of one call setup: the credentials, the HTTP response and
duration for the signed-URL acquisition, and the duration/outcome of the
`websockets.connect` attempt. -/
structure SetupEnv where
  apiKey : Option String
  agentId : Option String
  httpResponse : HttpResponse
  httpElapsed : Nat
  connectElapsed : Nat
  connectFails : Bool
deriving Repr, DecidableEq

/-- Embeds `_setup_elevenlabs` (websocket_handler.py lines 55-77): acquire
the signed URL (re-raising its failures), then `asyncio.wait_for` the
socket connect with a 10-second timeout; both timeout and other connect
failures are logged and re-raised. -/
def setup_elevenlabs (env : SetupEnv) : Except SetupError Unit :=
  match (get_signed_url env.apiKey env.agentId env.httpResponse env.httpElapsed).1 with
  | .error e => .error (.acquisition e)
  | .ok _ =>
      if env.connectElapsed > SETUP_CONNECT_TIMEOUT then .error .connectTimeout
      else if env.connectFails then .error .connectFailed
      else .ok ()

/-- Outcome of `OutboundWebSocketHandler.handle` as seen by its caller:
`raised` is the exception it propagates (`none` means it returns
normally), `relayStarted` records whether `_handle_connection` (the two
relay read loops) was reached, `cleanupRan` whether the `finally` block
ran. -/
structure HandleOutcome where
  raised : Option SetupError
  relayStarted : Bool
  cleanupRan : Bool
deriving Repr, DecidableEq

/-- Embeds `OutboundWebSocketHandler.handle` (websocket_handler.py lines
36-53): `try: _setup_elevenlabs(); _handle_connection() except Exception:
logger.error(...) finally: _cleanup()`. Every exception of the body is
caught and logged, so `handle` itself never raises. -/
def handle (env : SetupEnv) : HandleOutcome :=
  match setup_elevenlabs env with
  | .error _ => { raised := none, relayStarted := false, cleanupRan := true }
  | .ok _ => { raised := none, relayStarted := true, cleanupRan := true }

/-- Dashboard observer connection handle (opaque). -/
abbrev Conn := Nat

/-- JSON envelope `json.dumps(\x7b"event": event, "data": payload\x7d)` built by
`DashboardConnectionManager.broadcast` (dashboard_ws.py line 39); the
payload dict is opaque here. -/
structure DashMessage where
  event : String
  data : String
deriving Repr, DecidableEq

/-- Embeds `DashboardConnectionManager.disconnect` (dashboard_ws.py lines
26-30): `self._connections.discard(websocket)` under the lock. The set is
modelled as the list of its elements. -/
def dashDisconnect (conns : List Conn) (ws : Conn) : List Conn :=
  conns.filter (fun c => c ≠ ws)

/-- One `_send(ws)` of `broadcast` (dashboard_ws.py lines 41-46): on
success the observer receives the message; on failure the error is logged
and the observer is disconnected. The accumulator is (deliveries so far,
current observer set). -/
def broadcastSend (fails : Conn → Bool) (msg : DashMessage)
    (acc : List (Conn × DashMessage) × List Conn) (ws : Conn) :
    List (Conn × DashMessage) × List Conn :=
  if fails ws then (acc.1, dashDisconnect acc.2 ws)
  else (acc.1 ++ [(ws, msg)], acc.2)

/-- Embeds `DashboardConnectionManager.broadcast` (dashboard_ws.py lines
32-48): snapshot the observer set under the lock, return early if empty,
then send to every snapshotted observer; `fails` is the environment oracle
for which sends raise. The final `Bool` is whether an error is propagated
to the caller — structurally `false`: each `_send` swallows its exception
and `asyncio.gather(..., return_exceptions=True)` never raises. -/
def broadcast (conns : List Conn) (event data : String) (fails : Conn → Bool) :
    (List (Conn × DashMessage) × List Conn) × Bool :=
  let snapshot := conns
  if snapshot.isEmpty then (([], conns), false)
  else (snapshot.foldl (broadcastSend fails ⟨event, data⟩) ([], conns), false)

example :
    broadcast [1, 2, 3] "call_ended" "p" (fun c => c == 2)
      = (([(1, ⟨"call_ended", "p"⟩), (3, ⟨"call_ended", "p"⟩)], [1, 3]), false) := by decide

/-- Payload of a `media` frame, `none` for any other frame. -/
def mediaPayload : TwilioMsg → Option String
  | .mediaEv p => some p
  | _ => none

/-- Rebuilding a session state with `elevenlabs_closed := true` is the
identity when the flag is already set. -/
theorem setClosed_eq_self (s : SessionState) (h : s.elevenlabsClosed = true) :
    { s with elevenlabsClosed := true } = s := by
  cases s
  simp_all

/-- Once `elevenlabs_closed` is true, the Twilio read loop breaks at its
top-of-loop check: no step changes the state and nothing is sent. -/
theorem handleTwilio_closed (steps : List TwStep) (s : SessionState)
    (h : s.elevenlabsClosed = true) :
    (handleTwilioMessages s steps).state = s ∧
      (handleTwilioMessages s steps).sent = [] := by
  induction steps generalizing s with
  | nil => simp [handleTwilioMessages]
  | cons step rest ih =>
    cases step with
    | envClosed =>
        simp only [handleTwilioMessages]
        rw [setClosed_eq_self s h]
        exact ih s h
    | twDisconnect => simp [handleTwilioMessages]
    | recv m sr co => simp [handleTwilioMessages, h]
    | recvDuringClose m sr co => simp [handleTwilioMessages, h]

/-- Splitting a Twilio-loop trace: the sends of `a ++ b` are the sends of
`a` followed, when the loop is still alive after `a`, by the sends of `b`
run from the state `a` reached. -/
theorem handleTwilio_sent_append (a b : List TwStep) (s : SessionState) :
    (handleTwilioMessages s (a ++ b)).sent =
      (handleTwilioMessages s a).sent ++
        (if (handleTwilioMessages s a).alive then
          (handleTwilioMessages (handleTwilioMessages s a).state b).sent
        else []) := by
  induction a generalizing s with
  | nil => simp [handleTwilioMessages]
  | cons step rest ih =>
    cases step with
    | envClosed =>
        simpa only [List.cons_append, handleTwilioMessages] using
          ih { s with elevenlabsClosed := true }
    | twDisconnect => simp [handleTwilioMessages]
    | recv m sr co =>
        by_cases h : s.elevenlabsClosed = true
        · simp [handleTwilioMessages, h]
        · have h' : s.elevenlabsClosed = false := by
            simpa using h
          cases hc : (processTwilioMsg s m sr co).2.2 with
          | true =>
              simp only [List.cons_append, handleTwilioMessages, h', Bool.false_eq_true,
                if_false, hc, if_true, List.append_eq]
              rw [ih]
              simp [List.append_assoc]
          | false =>
              simp [handleTwilioMessages, h', hc]
    | recvDuringClose m sr co =>
        by_cases h : s.elevenlabsClosed = true
        · simp [handleTwilioMessages, h]
        · have h' : s.elevenlabsClosed = false := by
            simpa using h
          cases hc : (processTwilioMsg { s with elevenlabsClosed := true } m sr co).2.2 with
          | true =>
              simp only [List.cons_append, handleTwilioMessages, h', Bool.false_eq_true,
                if_false, hc, if_true, List.append_eq]
              rw [ih]
              simp [List.append_assoc]
          | false =>
              simp [handleTwilioMessages, h', hc]

/-- C1. For every sequence of inbound telephony `media` events (possibly
interleaved with unrecognized events) received before any `stop` or
disconnect, with the AI-leg closed flag false at the time of each send,
the Twilio read loop attempts exactly one `user_audio_chunk` send on the
ElevenLabs socket per `media` event, carrying the payloads in receipt
order, with no reordering, loss, or batching. -/
theorem C1_media_forwarded_in_order (s : SessionState)
    (hws : s.elevenlabsWs = true) (hcl : s.elevenlabsClosed = false)
    (msgs : List TwilioMsg)
    (hm : ∀ m ∈ msgs, (∃ p, m = TwilioMsg.mediaEv p) ∨ ∃ t, m = TwilioMsg.otherEv t) :
    (handleTwilioMessages s (msgs.map (fun m => TwStep.recv m .ok true))).sent
      = (msgs.filterMap mediaPayload).map TwAction.elSendAudio := by
  induction msgs with
  | nil => simp [handleTwilioMessages]
  | cons m rest ih =>
    rcases hm m (List.mem_cons_self m rest) with ⟨p, rfl⟩ | ⟨t, rfl⟩
    · simp only [List.map_cons, handleTwilioMessages, hcl, Bool.false_eq_true, if_false,
        processTwilioMsg, hws, Bool.not_false, Bool.and_self, if_true]
      rw [ih (fun x hx => hm x (List.mem_cons_of_mem _ hx))]
      simp [mediaPayload]
    · simp only [List.map_cons, handleTwilioMessages, hcl, Bool.false_eq_true, if_false,
        processTwilioMsg]
      rw [ih (fun x hx => hm x (List.mem_cons_of_mem _ hx))]
      simp [mediaPayload]

/-- Witness for C1 at a concrete trace of three frames. -/
theorem C1_media_forwarded_in_order_witness :
    (handleTwilioMessages { initialState "" "" with elevenlabsWs := true }
        ([TwilioMsg.mediaEv "QQ", TwilioMsg.otherEv "mark", TwilioMsg.mediaEv "RR"].map
          (fun m => TwStep.recv m .ok true))).sent
      = [TwAction.elSendAudio "QQ", TwAction.elSendAudio "RR"] := by
  have h := C1_media_forwarded_in_order
    { initialState "" "" with elevenlabsWs := true } rfl rfl
    [TwilioMsg.mediaEv "QQ", TwilioMsg.otherEv "mark", TwilioMsg.mediaEv "RR"]
    (by
      intro m hmem
      simp only [List.mem_cons, List.not_mem_nil, or_false] at hmem
      rcases hmem with rfl | rfl | rfl
      · exact Or.inl ⟨"QQ", rfl⟩
      · exact Or.inr ⟨"mark", rfl⟩
      · exact Or.inl ⟨"RR", rfl⟩)
  simpa using h

/-- C2. Once the state reached by the Twilio read loop has
`elevenlabs_closed` true — whichever way it was set — extending the
environment trace by any further steps (in particular further `media`
events) produces no additional send on the ElevenLabs socket: the sends of
the extended trace equal the sends of the prefix. -/
theorem C2_no_send_after_closed (s : SessionState) (pre post : List TwStep)
    (h : (handleTwilioMessages s pre).state.elevenlabsClosed = true) :
    (handleTwilioMessages s (pre ++ post)).sent = (handleTwilioMessages s pre).sent := by
  rw [handleTwilio_sent_append]
  rcases hb : (handleTwilioMessages s pre).alive with _ | _
  · simp [hb]
  · simp [hb, (handleTwilio_closed post _ h).2]

/-- Witness for C2: a failed audio send marks the AI leg closed and a
later `media` event is not forwarded. -/
theorem C2_no_send_after_closed_witness :
    (handleTwilioMessages { initialState "" "" with elevenlabsWs := true }
        ([TwStep.recv (TwilioMsg.mediaEv "a") .connClosed true] ++
          [TwStep.recv (TwilioMsg.mediaEv "b") .ok true])).sent
      = (handleTwilioMessages { initialState "" "" with elevenlabsWs := true }
          [TwStep.recv (TwilioMsg.mediaEv "a") .connClosed true]).sent := by
  exact C2_no_send_after_closed _ _ _ (by decide)

/-- C3, counterexample. With valid credentials, a fast successful
signed-URL acquisition and an 11-second socket connect, `_setup_elevenlabs`
raises the connect timeout, the relay loops never start — but `handle`
catches every exception of its body and returns normally (`raised = none`),
so the setup failure is not surfaced to the caller of `handle`, contrary to
the claim. -/
theorem C3_setup_failure_not_surfaced_cex :
    setup_elevenlabs ⟨some "k", some "a", ⟨200, "", "wss://u"⟩, 1, 11, false⟩
        = .error .connectTimeout
    ∧ (handle ⟨some "k", some "a", ⟨200, "", "wss://u"⟩, 1, 11, false⟩).relayStarted = false
    ∧ (handle ⟨some "k", some "a", ⟨200, "", "wss://u"⟩, 1, 11, false⟩).raised = none :=
  ⟨rfl, rfl, rfl⟩

/-- C3, amended. If establishing the AI leg fails (signed-URL acquisition
failure or connect timeout), neither relay read loop is started and the
`finally` cleanup runs — but `handle` logs and swallows the failure, so its
caller observes normal completion rather than the error. -/
theorem C3_setup_failure_aborts_before_relay (env : SetupEnv) (e : SetupError)
    (h : setup_elevenlabs env = .error e) :
    (handle env).relayStarted = false ∧ (handle env).cleanupRan = true ∧
      (handle env).raised = none := by
  simp [handle, h]

/-- Witness for the amended C3 at the connect-timeout environment. -/
theorem C3_setup_failure_aborts_before_relay_witness :
    (handle ⟨some "k", some "a", ⟨200, "ok", "wss://v"⟩, 2, 12, false⟩).relayStarted = false
    ∧ (handle ⟨some "k", some "a", ⟨200, "ok", "wss://v"⟩, 2, 12, false⟩).cleanupRan = true
    ∧ (handle ⟨some "k", some "a", ⟨200, "ok", "wss://v"⟩, 2, 12, false⟩).raised = none :=
  C3_setup_failure_aborts_before_relay _ .connectTimeout rfl

/-- Running the ElevenLabs read loop to a transport disconnect equals
running it to a plain iterator end, then setting `elevenlabs_closed` and
appending the disconnect-drain actions. -/
theorem handleEl_connClosed_split (s : SessionState) (frames : List (ElFrame × Bool))
    (twConn stopOk : Bool) :
    handleElevenLabsMessages s frames .connClosedTerm twConn stopOk
      = ({ (handleElevenLabsMessages s frames .iterEnd twConn stopOk).1 with
            elevenlabsClosed := true },
         (handleElevenLabsMessages s frames .iterEnd twConn stopOk).2
           ++ elDisconnectActions twConn stopOk) := by
  induction frames generalizing s with
  | nil => simp [handleElevenLabsMessages]
  | cons fo rest ih =>
      cases fo with
      | mk f ok => simp [handleElevenLabsMessages, ih, List.append_assoc]

/-- C4. When the ElevenLabs socket disconnects at transport level, the
handler sets the closed flag, emits exactly the drain sequence after the
frames processed so far — mark closed, sleep one second, then (only if the
Twilio socket is still connected) a `\x7bevent:"stop"\x7d` send followed, when
that send succeeds, by a close of the Twilio socket — the drain sequence
contains no send on the ElevenLabs socket, and from the resulting state the
Twilio read loop never sends anything to the ElevenLabs socket again. -/
theorem C4_ai_disconnect_drain (s : SessionState) (frames : List (ElFrame × Bool))
    (twConn stopOk : Bool) :
    (handleElevenLabsMessages s frames .connClosedTerm twConn stopOk).1.elevenlabsClosed = true
    ∧ (handleElevenLabsMessages s frames .connClosedTerm twConn stopOk).2
        = (handleElevenLabsMessages s frames .iterEnd twConn stopOk).2
          ++ ([ElAction.markClosed, ElAction.sleepSec 1]
              ++ (if twConn then
                    (if stopOk then [ElAction.twSendStop, ElAction.twCloseConn]
                     else [ElAction.twSendStop])
                  else []))
    ∧ (∀ a ∈ ([ElAction.markClosed, ElAction.sleepSec 1]
              ++ (if twConn then
                    (if stopOk then [ElAction.twSendStop, ElAction.twCloseConn]
                     else [ElAction.twSendStop])
                  else [])), isElSocketSend a = false)
    ∧ (∀ twSteps,
        (handleTwilioMessages
          (handleElevenLabsMessages s frames .connClosedTerm twConn stopOk).1 twSteps).sent
        = []) := by
  have hsplit := handleEl_connClosed_split s frames twConn stopOk
  refine ⟨?_, ?_, ?_, ?_⟩
  · rw [hsplit]
  · rw [hsplit]
    simp [elDisconnectActions]
  · intro a ha
    have hshape : a = ElAction.markClosed ∨ a = .sleepSec 1 ∨ a = .twSendStop
        ∨ a = .twCloseConn := by
      cases twConn <;> cases stopOk <;> simp_all <;> tauto
    rcases hshape with rfl | rfl | rfl | rfl <;> rfl
  · intro twSteps
    exact (handleTwilio_closed twSteps _ (by rw [hsplit])).2

/-- C5. Processing an inbound ElevenLabs frame of type `ping` carrying a
(truthy) event identifier attempts exactly one send on the ElevenLabs
socket — the `\x7btype:"pong", event_id\x7d` reply echoing that identifier —
sends nothing to the telephony socket, and leaves the session state
unchanged. -/
theorem C5_ping_pong (s : SessionState) (e : String) (ok : Bool) (h : e ≠ "") :
    (elFrameStep s (ElFrame.ping (some e)) ok).1 = s
    ∧ (elFrameStep s (ElFrame.ping (some e)) ok).2.filter isElSocketSend
        = [ElAction.elSendPong e]
    ∧ (elFrameStep s (ElFrame.ping (some e)) ok).2.filter isTwilioSend = [] := by
  have ht : truthyOpt (some e) = true := by simp [truthyOpt, h]
  cases ok <;> simp [elFrameStep, ht, isElSocketSend, isTwilioSend]

/-- Witness for C5 at a concrete ping event id. -/
theorem C5_ping_pong_witness :
    (elFrameStep (initialState "" "") (ElFrame.ping (some "ev_42")) true).1
        = initialState "" ""
    ∧ (elFrameStep (initialState "" "") (ElFrame.ping (some "ev_42")) true).2.filter
        isElSocketSend = [ElAction.elSendPong "ev_42"]
    ∧ (elFrameStep (initialState "" "") (ElFrame.ping (some "ev_42")) true).2.filter
        isTwilioSend = [] :=
  C5_ping_pong (initialState "" "") "ev_42" true (by decide)

/-- Greeting structure of `_build_first_message`: it embeds the trimmed
client name when that is non-empty, and the fallback term `"there"`
otherwise. -/
theorem build_first_message_contains (clientName : String) :
    ((pyStrip clientName) ≠ "" →
      ∃ pre post, build_first_message clientName = pre ++ (pyStrip clientName) ++ post)
    ∧ ((pyStrip clientName) = "" →
      ∃ pre post, build_first_message clientName = pre ++ "there" ++ post) := by
  constructor
  · intro h
    refine ⟨"Hey ", "! Umm, this is Monica from Dev Fusion. How are you doing today? I am an Ai agent so, umm, please bear with me as you might experience a little delay in my responses.", ?_⟩
    simp [build_first_message, h]
  · intro h
    refine ⟨"Hey ", "! Umm, this is Monica from Dev Fusion. How are you doing today? I am an Ai agent so, umm, please bear with me as you might experience a little delay in my responses.", ?_⟩
    simp [build_first_message, h]

/-- C6. A telephony `start` event carrying non-empty custom parameters,
received once on the Twilio loop with the AI leg connected and open,
triggers exactly one send on the ElevenLabs socket: the
session-initialization payload whose first-message greeting is built from
the `client_name` custom parameter. That greeting contains the (trimmed)
client name when one is present, and the generic fallback term `"there"`
when the name is absent or blank. -/
theorem C6_start_event_init_message (s : SessionState) (sid csid : String)
    (params : List (String × String))
    (hws : s.elevenlabsWs = true) (hcl : s.elevenlabsClosed = false)
    (hp : params ≠ []) :
    (handleTwilioMessages s [.recv (.startEv sid csid params) .ok true]).sent
        = [TwAction.elSendInit
            (build_first_message ((params.lookup "client_name").getD ""))
            (build_dynamic_variables ((params.lookup "client_name").getD "")
              ((params.lookup "phone_number").getD ""))]
    ∧ (pyStrip ((params.lookup "client_name").getD "") ≠ "" →
        ∃ pre post, build_first_message ((params.lookup "client_name").getD "")
          = pre ++ pyStrip ((params.lookup "client_name").getD "") ++ post)
    ∧ (pyStrip ((params.lookup "client_name").getD "") = "" →
        ∃ pre post, build_first_message ((params.lookup "client_name").getD "")
          = pre ++ "there" ++ post) := by
  refine ⟨?_, (build_first_message_contains _).1, (build_first_message_contains _).2⟩
  simp [handleTwilioMessages, hcl, processTwilioMsg, handleStartEvent, hp,
    initialize_conversation_context, hws]

/-- Witness for C6: a start event whose custom parameters carry the name
`Ada` produces exactly the init message greeting `Ada`. -/
theorem C6_start_event_init_message_witness :
    (handleTwilioMessages { initialState "" "" with elevenlabsWs := true }
        [.recv (.startEv "MS1" "CA1"
          [("client_name", "Ada"), ("phone_number", "+15550001111")]) .ok true]).sent
        = [TwAction.elSendInit
            (build_first_message (([("client_name", "Ada"), ("phone_number", "+15550001111")].lookup
              "client_name").getD ""))
            (build_dynamic_variables
              (([("client_name", "Ada"), ("phone_number", "+15550001111")].lookup
                "client_name").getD "")
              (([("client_name", "Ada"), ("phone_number", "+15550001111")].lookup
                "phone_number").getD ""))]
    ∧ (∃ pre post,
        build_first_message (([("client_name", "Ada"), ("phone_number", "+15550001111")].lookup
          "client_name").getD "") = pre ++ "Ada" ++ post)
    ∧ (∃ pre post,
        build_first_message (([("phone_number", "+15550001111")].lookup
          "client_name").getD "") = pre ++ "there" ++ post) := by
  have h := C6_start_event_init_message
    { initialState "" "" with elevenlabsWs := true } "MS1" "CA1"
    [("client_name", "Ada"), ("phone_number", "+15550001111")] rfl rfl (by decide)
  have h2 := C6_start_event_init_message
    { initialState "" "" with elevenlabsWs := true } "MS1" "CA1"
    [("phone_number", "+15550001111")] rfl rfl (by decide)
  refine ⟨h.1, ?_, h2.2.2 (by decide)⟩
  simpa using h.2.1 (by decide)

/-- C10. Processing a telephony `start` event whose `customParameters` dict
is non-empty overwrites the constructor-supplied `client_name` and
`phone_number` with `customParameters.get(key, "")` — in particular with
the empty string when a key is absent — while a `start` event whose
`customParameters` is absent or empty leaves both fields unchanged. -/
theorem C10_custom_params_overwrite (s : SessionState) (sid csid : String)
    (params : List (String × String)) (sendRes : SendResult) (closeOk : Bool)
    (hcl : s.elevenlabsClosed = false) :
    (params ≠ [] →
      (handleTwilioMessages s
          [.recv (.startEv sid csid params) sendRes closeOk]).state.clientName
        = (params.lookup "client_name").getD ""
      ∧ (handleTwilioMessages s
          [.recv (.startEv sid csid params) sendRes closeOk]).state.phoneNumber
        = (params.lookup "phone_number").getD "")
    ∧ (params = [] →
      (handleTwilioMessages s
          [.recv (.startEv sid csid params) sendRes closeOk]).state.clientName
        = s.clientName
      ∧ (handleTwilioMessages s
          [.recv (.startEv sid csid params) sendRes closeOk]).state.phoneNumber
        = s.phoneNumber) := by
  constructor <;> intro hp <;>
    simp [handleTwilioMessages, hcl, processTwilioMsg, handleStartEvent, hp]

/-- Witness for C10: constructor values `Alice` / `+15551230000` are
overwritten by empty strings when the non-empty custom parameters lack the
`client_name` and `phone_number` keys. -/
theorem C10_custom_params_overwrite_witness :
    (handleTwilioMessages
        { initialState "Alice" "+15551230000" with elevenlabsWs := true }
        [.recv (.startEv "MS2" "CA2" [("foo", "bar")]) .ok true]).state.clientName = ""
    ∧ (handleTwilioMessages
        { initialState "Alice" "+15551230000" with elevenlabsWs := true }
        [.recv (.startEv "MS2" "CA2" [("foo", "bar")]) .ok true]).state.phoneNumber = "" := by
  have h := (C10_custom_params_overwrite
    { initialState "Alice" "+15551230000" with elevenlabsWs := true }
    "MS2" "CA2" [("foo", "bar")] .ok true rfl).1 (by decide)
  simpa using h

/-- C7, counterexample. On the telephony leg a malformed frame is not
skipped: after a `badJson` frame the Twilio read loop has terminated
(`alive = false`), so a subsequent well-formed `media` frame is never
processed and its payload is never forwarded, contrary to the claim that
either read loop continues past a malformed frame. -/
theorem C7_twilio_malformed_terminates_cex :
    (handleTwilioMessages { initialState "" "" with elevenlabsWs := true }
        [.recv .badJson .ok true, .recv (.mediaEv "AAAA") .ok true]).sent
      = [TwAction.logError]
    ∧ (handleTwilioMessages { initialState "" "" with elevenlabsWs := true }
        [.recv .badJson .ok true, .recv (.mediaEv "AAAA") .ok true]).alive = false
    ∧ TwAction.elSendAudio "AAAA" ∉
        (handleTwilioMessages { initialState "" "" with elevenlabsWs := true }
          [.recv .badJson .ok true, .recv (.mediaEv "AAAA") .ok true]).sent := by
  decide

/-- C7, amended. A malformed inbound frame on the AI (ElevenLabs) leg is
logged and skipped and that read loop continues with the remaining frames;
on the telephony (Twilio) leg, a malformed frame is logged by the loop's
outer exception handler and terminates that read loop, so subsequent
frames are not processed. -/
theorem C7_malformed_frame_handling :
    (∀ (s : SessionState) (ok : Bool) (rest : List (ElFrame × Bool))
        (term : ElTermination) (twConn stopOk : Bool),
      handleElevenLabsMessages s ((ElFrame.malformed, ok) :: rest) term twConn stopOk
        = ((handleElevenLabsMessages s rest term twConn stopOk).1,
            ElAction.logErr :: (handleElevenLabsMessages s rest term twConn stopOk).2))
    ∧ (∀ (s : SessionState) (sr : SendResult) (co : Bool) (rest : List TwStep),
        s.elevenlabsClosed = false →
        handleTwilioMessages s (.recv .badJson sr co :: rest)
          = ⟨s, [TwAction.logError], false⟩) := by
  constructor
  · intro s ok rest term twConn stopOk
    simp [handleElevenLabsMessages, elFrameStep]
  · intro s sr co rest h
    simp [handleTwilioMessages, h, processTwilioMsg]

/-- Witness for the amended C7: a malformed ElevenLabs frame followed by a
ping still yields the pong; a malformed Twilio frame ends that loop. -/
theorem C7_malformed_frame_handling_witness :
    handleElevenLabsMessages (initialState "" "")
        [(ElFrame.malformed, true), (ElFrame.ping (some "e1"), true)] .iterEnd true true
      = (initialState "" "", [ElAction.logErr, ElAction.elSendPong "e1"])
    ∧ handleTwilioMessages { initialState "" "" with elevenlabsWs := true }
        [.recv .badJson .ok true, .recv (.mediaEv "zz") .ok true]
      = ⟨{ initialState "" "" with elevenlabsWs := true }, [TwAction.logError], false⟩ := by
  refine ⟨?_, C7_malformed_frame_handling.2 _ .ok true [.recv (.mediaEv "zz") .ok true] rfl⟩
  rw [C7_malformed_frame_handling.1]
  decide

/-- C8, counterexample. The signed-URL acquisition is not bounded by the
10-second timeout: with valid credentials and a 200 response, an HTTP call
taking 20 seconds (more than the 10-second bound the claim says governs,
less than the 30-second HTTP-client timeout) still succeeds. The 10-second
`asyncio.wait_for` in `_setup_elevenlabs` bounds only the subsequent
socket connect. -/
theorem C8_acquisition_not_bounded_by_10s_cex :
    (get_signed_url (some "k") (some "a") ⟨200, "", "wss://u"⟩ 20).1 = .ok "wss://u"
    ∧ SETUP_CONNECT_TIMEOUT < 20 ∧ 20 ≤ SIGNED_URL_HTTP_TIMEOUT :=
  ⟨rfl, by decide, by decide⟩

/-- C8, amended. The signed-session acquirer fails with a configuration
error when the API key or agent identifier is absent or empty, before any
HTTP request is made; it performs at most one HTTP request (no retry);
within the 30-second HTTP bound a non-200 response fails with an upstream
error and a 200 response succeeds; and the bound governing the acquisition
is the 30-second HTTP-client timeout — not the 10-second timeout, which
belongs to the later socket connect. -/
theorem C8_acquirer_error_behaviour (apiKey agentId : Option String)
    (resp : HttpResponse) (elapsed : Nat) :
    ((truthyOpt apiKey = false ∨ truthyOpt agentId = false) →
      get_signed_url apiKey agentId resp elapsed
        = (.error (.configError "Missing ELEVENLABS_API_KEY or ELEVENLABS_AGENT_ID"), 0))
    ∧ (get_signed_url apiKey agentId resp elapsed).2 ≤ 1
    ∧ (truthyOpt apiKey = true → truthyOpt agentId = true →
        elapsed ≤ SIGNED_URL_HTTP_TIMEOUT → resp.statusCode ≠ 200 →
        (get_signed_url apiKey agentId resp elapsed).1
          = .error (.upstreamError resp.statusCode resp.text))
    ∧ (truthyOpt apiKey = true → truthyOpt agentId = true →
        elapsed > SIGNED_URL_HTTP_TIMEOUT →
        (get_signed_url apiKey agentId resp elapsed).1 = .error .httpTimeout)
    ∧ (truthyOpt apiKey = true → truthyOpt agentId = true →
        elapsed ≤ SIGNED_URL_HTTP_TIMEOUT → resp.statusCode = 200 →
        (get_signed_url apiKey agentId resp elapsed).1 = .ok resp.signedUrl) := by
  refine ⟨?_, ?_, ?_, ?_, ?_⟩
  · rintro (h | h) <;> simp [get_signed_url, validate_elevenlabs_config, h]
  · cases hv : validate_elevenlabs_config apiKey agentId with
    | error m => simp [get_signed_url, hv]
    | ok u => simp only [get_signed_url, hv]; split_ifs <;> simp
  · intro h1 h2 h3 h4
    have hv : validate_elevenlabs_config apiKey agentId = .ok () := by
      simp [validate_elevenlabs_config, h1, h2]
    simp [get_signed_url, hv, not_lt.mpr h3, h4]
  · intro h1 h2 h3
    have hv : validate_elevenlabs_config apiKey agentId = .ok () := by
      simp [validate_elevenlabs_config, h1, h2]
    simp [get_signed_url, hv, h3]
  · intro h1 h2 h3 h4
    have hv : validate_elevenlabs_config apiKey agentId = .ok () := by
      simp [validate_elevenlabs_config, h1, h2]
    simp [get_signed_url, hv, not_lt.mpr h3, h4]

/-- Witness for the amended C8: a missing API key fails with the config
error and zero HTTP requests; a 503 within the bound fails upstream; a
31-second HTTP call times out. -/
theorem C8_acquirer_error_behaviour_witness :
    get_signed_url none (some "a") ⟨200, "", "wss://u"⟩ 0
      = (.error (.configError "Missing ELEVENLABS_API_KEY or ELEVENLABS_AGENT_ID"), 0)
    ∧ (get_signed_url (some "k") (some "a") ⟨503, "err", "wss://u"⟩ 1).1
      = .error (.upstreamError 503 "err")
    ∧ (get_signed_url (some "k") (some "a") ⟨200, "", "wss://u"⟩ 31).1
      = .error .httpTimeout := by
  refine ⟨(C8_acquirer_error_behaviour none (some "a") ⟨200, "", "wss://u"⟩ 0).1 (Or.inl rfl),
    ?_, ?_⟩
  · exact (C8_acquirer_error_behaviour (some "k") (some "a") ⟨503, "err", "wss://u"⟩ 1).2.2.1
      (by decide) (by decide) (by decide) (by decide)
  · exact (C8_acquirer_error_behaviour (some "k") (some "a") ⟨200, "", "wss://u"⟩ 31).2.2.2.1
      (by decide) (by decide) (by decide)

/-- Deliveries already made are preserved by the remaining sends of a
broadcast. -/
theorem broadcastSend_foldl_mono (fails : Conn → Bool) (msg : DashMessage) :
    ∀ (l : List Conn) (acc : List (Conn × DashMessage) × List Conn)
      (x : Conn × DashMessage), x ∈ acc.1 →
      x ∈ (l.foldl (broadcastSend fails msg) acc).1 := by
  intro l
  induction l with
  | nil => intro acc x hx; simpa using hx
  | cons a rest ih =>
      intro acc x hx
      simp only [List.foldl_cons]
      apply ih
      by_cases hf : fails a = true <;>
        simp [broadcastSend, hf, hx, List.mem_append]

/-- Every snapshotted observer whose send does not fail receives the
broadcast message. -/
theorem broadcastSend_foldl_delivers (fails : Conn → Bool) (msg : DashMessage) :
    ∀ (l : List Conn) (acc : List (Conn × DashMessage) × List Conn) (w : Conn),
      w ∈ l → fails w = false →
      (w, msg) ∈ (l.foldl (broadcastSend fails msg) acc).1 := by
  intro l
  induction l with
  | nil => intro acc w hw; simp at hw
  | cons a rest ih =>
      intro acc w hw hwf
      rcases List.mem_cons.mp hw with rfl | hw'
      · simp only [List.foldl_cons]
        apply broadcastSend_foldl_mono
        simp [broadcastSend, hwf]
      · simp only [List.foldl_cons]
        exact ih _ w hw' hwf

/-- An observer absent from the current set stays absent through the
remaining sends of a broadcast. -/
theorem broadcastSend_foldl_out (fails : Conn → Bool) (msg : DashMessage) (f : Conn) :
    ∀ (l : List Conn) (acc : List (Conn × DashMessage) × List Conn),
      f ∉ acc.2 → f ∉ (l.foldl (broadcastSend fails msg) acc).2 := by
  intro l
  induction l with
  | nil => intro acc h; simpa using h
  | cons a rest ih =>
      intro acc h
      simp only [List.foldl_cons]
      apply ih
      by_cases hf : fails a = true
      · simp only [broadcastSend, hf, if_true, dashDisconnect]
        intro hmem
        exact h (List.mem_of_mem_filter hmem)
      · simpa [broadcastSend, hf] using h

/-- A snapshotted observer whose send fails is removed from the observer
set by the broadcast. -/
theorem broadcastSend_foldl_removed (fails : Conn → Bool) (msg : DashMessage)
    (f : Conn) (hf : fails f = true) :
    ∀ (l : List Conn) (acc : List (Conn × DashMessage) × List Conn),
      f ∈ l → f ∉ (l.foldl (broadcastSend fails msg) acc).2 := by
  intro l
  induction l with
  | nil => intro acc h; simp at h
  | cons a rest ih =>
      intro acc hl
      simp only [List.foldl_cons]
      by_cases ha : a = f
      · subst ha
        apply broadcastSend_foldl_out
        simp [broadcastSend, hf, dashDisconnect]
      · rcases List.mem_cons.mp hl with rfl | hl'
        · exact absurd rfl ha
        · exact ih _ hl'

/-- C9. During a dashboard broadcast, with any set of registered observers
of which one has a failing send: every observer whose send succeeds
receives the `\x7bevent, data\x7d` envelope, the failing observer is removed
from the observer set, and no error is propagated to the caller of
`broadcast`. -/
theorem C9_broadcast_isolation (conns : List Conn) (event data : String)
    (fails : Conn → Bool) (f w : Conn)
    (hfmem : f ∈ conns) (hff : fails f = true)
    (hwmem : w ∈ conns) (hwf : fails w = false) :
    ((w, (⟨event, data⟩ : DashMessage)) ∈ (broadcast conns event data fails).1.1)
    ∧ f ∉ (broadcast conns event data fails).1.2
    ∧ (broadcast conns event data fails).2 = false := by
  have hne : conns.isEmpty = false := by
    cases conns
    · simp at hfmem
    · rfl
  refine ⟨?_, ?_, ?_⟩
  · simpa [broadcast, hne] using
      broadcastSend_foldl_delivers fails ⟨event, data⟩ conns ([], conns) w hwmem hwf
  · simpa [broadcast, hne] using
      broadcastSend_foldl_removed fails ⟨event, data⟩ f hff conns ([], conns) hfmem
  · cases hc : conns.isEmpty <;> simp [broadcast, hc]

/-- Witness for C9: broadcast to observers 1, 2, 3 where the send to 2
fails — 1 still receives the envelope, 2 is removed, no error raised. -/
theorem C9_broadcast_isolation_witness :
    ((1, (⟨"call_ended", "pay"⟩ : DashMessage))
        ∈ (broadcast [1, 2, 3] "call_ended" "pay" (fun c => c == 2)).1.1)
    ∧ (2 : Conn) ∉ (broadcast [1, 2, 3] "call_ended" "pay" (fun c => c == 2)).1.2
    ∧ (broadcast [1, 2, 3] "call_ended" "pay" (fun c => c == 2)).2 = false :=
  C9_broadcast_isolation [1, 2, 3] "call_ended" "pay" (fun c => c == 2) 2 1
    (by decide) (by decide) (by decide) (by decide)

end Devleven
